import Mathlib

/-!
Verification of the code-execution worker core (`src/worker/executor.py`)
against its specification.

The worker's pure decision logic is shallowly embedded here:

* JSON scalar values carried inside a job payload are modelled by `PyVal`
  (the claims under study only exercise scalar fields; arrays/objects never
  occur in them). Python text is modelled as `List Char`, so slicing
  `s[:n]` becomes `List.take n` (both count characters, not bytes).
* Numbers are modelled by `ℚ`: Python's `isinstance(t, (int, float))`
  check treats ints and floats uniformly, and every literal appearing in
  the claims is exactly representable.
* Interactions with the outside world (the Docker subprocess, DynamoDB
  puts, SQS calls, wall-clock time) are passed in as explicit oracle
  parameters, and the side effects the worker performs (sleeps, writes,
  message deletion) are returned as data, so each code path of the Python
  source corresponds to a computable Lean function.
-/

/-- A JSON scalar value as decoded by `json.loads`.  `jbool` is kept
separate from `jnum` but, mirroring Python where `bool` is a subclass of
`int`, boolean values pass the `isinstance(t, (int, float))` test. -/
inductive PyVal where
  | jnull : PyVal
  | jbool (b : Bool) : PyVal
  | jnum (q : ℚ) : PyVal
  | jstr (s : List Char) : PyVal
deriving DecidableEq, Repr

/-- Python numeric coercion used by `isinstance(t, (int, float))` together
with comparison: booleans count as the integers 0 and 1; `none` means the
value is not a number. -/
def toNumber : PyVal → Option ℚ
  | .jnum q => some q
  | .jbool b => some (if b then 1 else 0)
  | _ => none

/-- Python `len(v)`: defined on strings (character count), a `TypeError`
on scalars that carry no length. -/
def pyLen : PyVal → Except (List Char) Nat
  | .jstr s => .ok s.length
  | _ => .error ("TypeError: object has no len()".toList)

/-- Rendering of a value inside an f-string (approximates Python `str`). -/
def pyStr : PyVal → List Char
  | .jstr s => s
  | .jnum q => (toString q).toList
  | .jbool b => (if b then "True" else "False").toList
  | .jnull => "None".toList

-- ===========================================================================
-- CONFIGURATION (src/worker/executor.py lines 34-53)
-- ===========================================================================

def MAX_EXECUTION_TIME : ℚ := 10

def MAX_CODE_SIZE : Nat := 10 * 1024

def WORKER_ID : List Char := "worker-001".toList

/-- The language → Docker image whitelist. -/
def LANGUAGE_IMAGES : List (String × String) :=
  [("python", "python:3.11-alpine"),
   ("javascript", "node:20-alpine"),
   ("ruby", "ruby:3.2-alpine"),
   ("go", "golang:1.21-alpine")]

-- ===========================================================================
-- validate_job (lines 124-149)
-- ===========================================================================

/-- First required field missing from the job dict, if any
(the Python loop returns on the first missing field). -/
def firstMissing (required : List String) (job : List (String × PyVal)) : Option String :=
  required.find? (fun f => (job.lookup f).isNone)

/-- Dict subscript `job[f]` after presence has been established; the
default is unreachable on the paths where this is used. -/
def getField (job : List (String × PyVal)) (f : String) : PyVal :=
  (job.lookup f).getD .jnull

/-- Membership test `job['language'] not in LANGUAGE_IMAGES` (dict
membership checks keys; non-string scalars are simply not members). -/
def isSupportedLanguage : PyVal → Bool
  | .jstr s => (LANGUAGE_IMAGES.lookup (String.mk s)).isSome
  | _ => false

def missingFieldMsg (f : String) : List Char :=
  "Missing required field: ".toList ++ f.toList

def unsupportedLanguageMsg (v : PyVal) : List Char :=
  "Unsupported language: ".toList ++ pyStr v ++
    ". Supported: ['python', 'javascript', 'ruby', 'go']".toList

def codeSizeMsg : List Char :=
  "Code exceeds size limit of 10240 bytes".toList

def invalidTimeoutMsg : List Char :=
  "Invalid timeout. Must be 1-10 seconds".toList

/-- `validate_job(job)` (lines 124-149).  Returns `(is_valid, error_message)`
on normal return; `Except.error` models an uncaught Python exception
escaping the function (e.g., `len` applied to a value with no length). -/
def validate_job (job : List (String × PyVal)) :
    Except (List Char) (Bool × Option (List Char)) :=
  match firstMissing ["job_id", "language", "code"] job with
  | some f => .ok (false, some (missingFieldMsg f))
  | none =>
    if ¬ isSupportedLanguage (getField job "language") then
      .ok (false, some (unsupportedLanguageMsg (getField job "language")))
    else
      match pyLen (getField job "code") with
      | .error e => .error e
      | .ok n =>
        if n > MAX_CODE_SIZE then
          .ok (false, some codeSizeMsg)
        else
          -- timeout = job.get('timeout', MAX_EXECUTION_TIME)
          let timeoutVal := (job.lookup "timeout").getD (.jnum MAX_EXECUTION_TIME)
          match toNumber timeoutVal with
          | none => .ok (false, some invalidTimeoutMsg)
          | some t =>
            if t ≤ 0 ∨ t > MAX_EXECUTION_TIME then
              .ok (false, some invalidTimeoutMsg)
            else
              .ok (true, none)

-- ===========================================================================
-- execute_code (lines 155-245)
-- ===========================================================================

inductive Status where
  | SUCCESS : Status
  | ERROR : Status
  | TIMEOUT : Status
deriving DecidableEq, Repr

/-- The dict returned by `execute_code`. -/
structure Outcome where
  status : Status
  output : List Char
  error : List Char
  execution_time_ms : ℚ
  exit_code : ℤ
deriving DecidableEq, Repr

/-- What `subprocess.run` on the Docker command did: terminated within the
timeout (with an exit code and captured text streams), raised
`subprocess.TimeoutExpired`, or raised some other launch/supervision
exception carrying a message. -/
inductive RunResult where
  | completed (returncode : ℤ) (stdout stderr : List Char) : RunResult
  | timedOut : RunResult
  | launchFailure (msg : List Char) : RunResult
deriving DecidableEq, Repr

def timeoutMsg (t : ℚ) : List Char :=
  "Execution exceeded time limit of ".toList ++ (toString t).toList ++ "s".toList

def internalErrMsg (m : List Char) : List Char :=
  "Internal execution error: ".toList ++ m

/-- `execute_code(language, code, timeout)` (lines 155-245), abstracted over
the subprocess interaction: the Docker command construction does not affect
the returned outcome, which depends only on the run result, the requested
timeout and the measured elapsed time `int((time.time()-start)*1000)`.
Every branch returns a dict; no exception escapes to the caller. -/
def execute_code (timeout elapsed_ms : ℚ) (run : RunResult) : Outcome :=
  match run with
  | .completed rc out err =>
      { status := if rc = 0 then .SUCCESS else .ERROR
        output := out.take 4000   -- result.stdout[:4000]
        error := err.take 4000    -- result.stderr[:4000]
        execution_time_ms := elapsed_ms
        exit_code := rc }
  | .timedOut =>
      { status := .TIMEOUT
        output := []
        error := timeoutMsg timeout
        execution_time_ms := timeout * 1000
        exit_code := -1 }
  | .launchFailure m =>
      { status := .ERROR
        output := []
        error := internalErrMsg m
        execution_time_ms := elapsed_ms
        exit_code := -1 }

-- ===========================================================================
-- write_result (lines 251-285)
-- ===========================================================================

/-- The DynamoDB item built at lines 257-268.  `timestamp` and `ttl` come
from wall-clock reads and are passed in explicitly; `worker_id` is the
process-global `WORKER_ID`. -/
structure Item where
  job_id : PyVal
  status : Status
  output : List Char
  error : List Char
  execution_time_ms : ℚ
  exit_code : ℤ
  language : PyVal
  worker_id : List Char
  timestamp : List Char
  ttl : ℤ
deriving DecidableEq, Repr

/-- Construction of the item (lines 257-268); `language` is
`job_metadata.get('language', 'unknown')`. -/
def build_item (job_id : PyVal) (result : Outcome)
    (job_metadata : List (String × PyVal)) (timestamp : List Char) (ttl : ℤ) : Item :=
  { job_id := job_id
    status := result.status
    output := result.output
    error := result.error
    execution_time_ms := result.execution_time_ms
    exit_code := result.exit_code
    language := (job_metadata.lookup "language").getD (.jstr "unknown".toList)
    worker_id := WORKER_ID
    timestamp := timestamp
    ttl := ttl }

/-- The durable store, keyed by `job_id`. -/
def Store := PyVal → Option Item

/-- `table.put_item(Item=item)`: a full replace keyed by the item's
`job_id`. -/
def put_item (store : Store) (item : Item) : Store :=
  fun k => if k = item.job_id then some item else store k

def max_retries : Nat := 3

/-- Trace of one `write_result` call: the returned boolean, the
`time.sleep` durations performed, and how many `put_item` attempts ran. -/
structure WriteTrace where
  ok : Bool
  sleeps : List Nat
  puts : Nat
deriving DecidableEq, Repr

/-- The retry loop of `write_result` (lines 270-285).  `putOk attempt`
tells whether the `table.put_item` call of that iteration succeeded or
raised `ClientError`.  `remaining` is `max_retries - attempt`, positive on
entry.  A failed attempt that is not the last sleeps `2 ** attempt`
seconds and continues; the last failure returns `False`. -/
def write_result_go (putOk : Nat → Bool) : Nat → Nat → WriteTrace
  | _, 0 => ⟨false, [], 0⟩
  | attempt, remaining + 1 =>
    if putOk attempt then ⟨true, [], 1⟩
    else if 0 < remaining then
      let p := write_result_go putOk (attempt + 1) remaining
      ⟨p.ok, 2 ^ attempt :: p.sleeps, p.puts + 1⟩
    else ⟨false, [], 1⟩

/-- `write_result(job_id, result, job_metadata)` retry behaviour: the loop
`for attempt in range(max_retries)` starting at attempt 0. -/
def write_result (putOk : Nat → Bool) : WriteTrace :=
  write_result_go putOk 0 max_retries

-- ===========================================================================
-- process_message (lines 291-346)
-- ===========================================================================

/-- Observable effects of one `process_message` call.
`executed = some t` iff `execute_code` was invoked, with timeout `t`;
`wrote` is the item passed to `write_result` when it was invoked;
`writeReported` is the boolean `write_result` returned (its value is
recorded even though the source discards it); `deleted` tells whether
`delete_message` was called. -/
structure Effects where
  executed : Option ℚ
  wrote : Option Item
  writeReported : Option Bool
  deleted : Bool
deriving DecidableEq, Repr

/-- `process_message(message)` (lines 291-346), with the message body
already decoded: `body = none` models a `json.JSONDecodeError` from
`json.loads`, `body = some job` a successfully decoded JSON object.
`run` is the subprocess oracle for the (at most one) `execute_code` call,
`putOk` the storage oracle for the (at most one) `write_result` call.
A `validate_job` exception falls through to the generic handler at line
344, which neither writes nor deletes. -/
def process_message (body : Option (List (String × PyVal)))
    (run : RunResult) (elapsed_ms : ℚ) (putOk : Nat → Bool)
    (timestamp : List Char) (ttl : ℤ) : Effects :=
  match body with
  | none =>
      -- except json.JSONDecodeError: delete_message (line 342)
      { executed := none, wrote := none, writeReported := none, deleted := true }
  | some job =>
    let job_id := (job.lookup "job_id").getD (.jstr "unknown".toList)
    match validate_job job with
    | .error _ =>
        -- except Exception: do not delete, let the message be redelivered
        { executed := none, wrote := none, writeReported := none, deleted := false }
    | .ok (false, error_msg) =>
        let result : Outcome :=
          { status := .ERROR
            output := []
            error := "Validation error: ".toList ++ error_msg.getD []
            execution_time_ms := 0
            exit_code := -1 }
        { executed := none
          wrote := some (build_item job_id result job timestamp ttl)
          writeReported := some (write_result putOk).ok
          deleted := true }
    | .ok (true, _) =>
        let t := (toNumber ((job.lookup "timeout").getD (.jnum MAX_EXECUTION_TIME))).getD 0
        let result := execute_code t elapsed_ms run
        { executed := some t
          wrote := some (build_item job_id result job timestamp ttl)
          writeReported := some (write_result putOk).ok
          deleted := true }

-- ===========================================================================
-- poll_queue (lines 363-420)
-- ===========================================================================

def max_consecutive_errors : Nat := 5

/-- One outcome of the `sqs.receive_message` call in a poll cycle:
either a successful response carrying some number of messages, or an
infrastructure error (`ClientError` or any unexpected exception). -/
inductive PollEvent where
  | recv (messages : Nat) : PollEvent
  | infraError : PollEvent
deriving DecidableEq, Repr

/-- One iteration of the `poll_queue` loop body as a function of the
current `consecutive_errors` counter and the cycle's event.  Returns
`some (counter, sleeps)` when the loop continues with the new counter
after performing the listed `time.sleep` durations, and `none` when the
loop `break`s (circuit breaker tripped).  The counter is reset only
inside `if messages:`; a successful empty poll leaves it unchanged. -/
def poll_queue_step (consecutive_errors : Nat) : PollEvent → Option (Nat × List Nat)
  | .recv n => if 0 < n then some (0, []) else some (consecutive_errors, [])
  | .infraError =>
      let c := consecutive_errors + 1
      if max_consecutive_errors ≤ c then none else some (c, [5])

-- ===========================================================================
-- Concrete jobs used by the claim theorems
-- ===========================================================================

/-- A valid python job with an explicit in-range timeout. -/
def ackBugJob : List (String × PyVal) :=
  [("job_id", .jstr "job-1".toList), ("language", .jstr "python".toList),
   ("code", .jstr "print(1)".toList), ("timeout", .jnum 5)]

/-- A valid python job whose timeout field is the given value. -/
def mk_timeout_job (t : PyVal) : List (String × PyVal) :=
  [("job_id", .jstr "test-123".toList), ("language", .jstr "python".toList),
   ("code", .jstr "print(1)".toList), ("timeout", t)]

/-- A valid python job with no timeout field at all. -/
def noTimeoutJob : List (String × PyVal) :=
  [("job_id", .jstr "test-123".toList), ("language", .jstr "python".toList),
   ("code", .jstr "print(1)".toList)]

/-- A well-formed job whose `code` field is a number, which supports no
`len`. -/
def numericCodeJob : List (String × PyVal) :=
  [("job_id", .jstr "test-456".toList), ("language", .jstr "python".toList),
   ("code", .jnum 5)]

-- ===========================================================================
-- UTF-8 byte accounting (for the truncation claims)
-- ===========================================================================

/-- Number of bytes of the UTF-8 encoding of one character. -/
def charBytes (c : Char) : Nat :=
  if c.toNat < 128 then 1
  else if c.toNat < 2048 then 2
  else if c.toNat < 65536 then 3
  else 4

/-- UTF-8 byte length of a text value. -/
def byteLen (s : List Char) : Nat := (s.map charBytes).sum

theorem byteLen_replicate (n : Nat) (c : Char) :
    byteLen (List.replicate n c) = n * charBytes c := by
  induction n with
  | zero => simp [byteLen]
  | succ k ih =>
      simp only [List.replicate_succ, byteLen, List.map_cons, List.sum_cons] at *
      rw [ih]; ring

-- ===========================================================================
-- Claim theorems
-- ===========================================================================

/-- C1: the claim says a message is acknowledged only when `write_result`
reported a durable write.  In the code, `process_message` discards the
boolean returned by `write_result` and calls `delete_message`
unconditionally: on a valid job whose storage puts all fail, the write is
reported failed and the message is deleted anyway. -/
theorem message_deleted_despite_write_failure (e : ℚ) (ts : List Char) (ttl : ℤ) :
    (process_message (some ackBugJob) (.completed 0 "1".toList []) e
        (fun _ => false) ts ttl).writeReported = some false ∧
    (process_message (some ackBugJob) (.completed 0 "1".toList []) e
        (fun _ => false) ts ttl).deleted = true :=
  ⟨rfl, rfl⟩

/-- C2: classification of `execute_code` outcomes: exit code 0 within the
timeout is `SUCCESS`; a non-zero exit is `ERROR` carrying (truncated)
stderr; a timeout gives `TIMEOUT` with the synthetic limit message and
exit code -1; a launch failure gives `ERROR` with an internal-error
message and exit code -1.  Totality of `execute_code` models that no
exception escapes to the caller. -/
theorem execute_code_classification (t e : ℚ) :
    (∀ out err, (execute_code t e (.completed 0 out err)).status = .SUCCESS) ∧
    (∀ rc out err, rc ≠ 0 →
        (execute_code t e (.completed rc out err)).status = .ERROR ∧
        (execute_code t e (.completed rc out err)).error = err.take 4000) ∧
    ((execute_code t e .timedOut).status = .TIMEOUT ∧
     (execute_code t e .timedOut).error = timeoutMsg t ∧
     (execute_code t e .timedOut).exit_code = -1) ∧
    (∀ m, (execute_code t e (.launchFailure m)).status = .ERROR ∧
          (execute_code t e (.launchFailure m)).error = internalErrMsg m ∧
          (execute_code t e (.launchFailure m)).exit_code = -1) := by
  refine ⟨fun out err => ?_, fun rc out err h => ⟨?_, rfl⟩,
    ⟨rfl, rfl, rfl⟩, fun m => ⟨rfl, rfl, rfl⟩⟩
  · simp [execute_code]
  · simp [execute_code, h]

/-- Witness for C2 at concrete inputs. -/
theorem execute_code_classification_witness :
    (execute_code 5 7 (.completed 0 "ok".toList "".toList)).status = .SUCCESS ∧
    (execute_code 5 7 (.completed 2 "".toList "boom".toList)).status = .ERROR ∧
    (execute_code 5 7 RunResult.timedOut).status = .TIMEOUT :=
  ⟨(execute_code_classification 5 7).1 _ _,
   ((execute_code_classification 5 7).2.1 2 _ _ (by decide)).1,
   (execute_code_classification 5 7).2.2.1.1⟩

/-- C3 counterexample: a successful poll cycle that returns zero messages
does not reset the consecutive-error counter (the reset sits inside
`if messages:`), refuting the claim that every successful poll cycle
resets it. -/
theorem empty_poll_keeps_counter :
    poll_queue_step 2 (.recv 0) = some (2, []) ∧ (2 : Nat) ≠ 0 :=
  ⟨rfl, by decide⟩

/-- C3 amended: a successful poll that yields at least one message resets
the counter to zero; a successful empty poll leaves it unchanged; a failed
cycle increments it, terminating the loop when the counter reaches 5 and
otherwise sleeping 5 seconds before the next attempt. -/
theorem poll_queue_step_spec (c n : Nat) :
    poll_queue_step c (.recv (n + 1)) = some (0, []) ∧
    poll_queue_step c (.recv 0) = some (c, []) ∧
    poll_queue_step c .infraError =
      (if 5 ≤ c + 1 then none else some (c + 1, [5])) := by
  refine ⟨?_, rfl, rfl⟩
  simp [poll_queue_step]

/-- C4 counterexample: the timeout 0.5 lies outside the claimed range
`1 ≤ t ≤ 10`, yet `validate_job` accepts it (the code only requires
`0 < t ≤ 10`). -/
theorem timeout_below_one_accepted :
    validate_job (mk_timeout_job (.jnum (mkRat 1 2))) = .ok (true, none) ∧
    ¬ ((1 : ℚ) ≤ mkRat 1 2) :=
  ⟨rfl, by decide⟩

/-- C4 amended: `validate_job` accepts a numeric timeout `t` exactly when
`0 < t ≤ 10`; every timeout outside this range (in particular values just
above the maximum, while the boundary 10 is accepted) is rejected with the
error message naming the range. -/
theorem validate_timeout_spec (q : ℚ) :
    validate_job (mk_timeout_job (.jnum q)) =
      .ok (if 0 < q ∧ q ≤ 10 then (true, none)
           else (false, some invalidTimeoutMsg)) := by
  have hred : validate_job (mk_timeout_job (.jnum q)) =
      if q ≤ 0 ∨ q > MAX_EXECUTION_TIME then .ok (false, some invalidTimeoutMsg)
      else .ok (true, none) := rfl
  rw [hred]
  by_cases h : 0 < q ∧ q ≤ 10
  · have hn : ¬ (q ≤ 0 ∨ q > MAX_EXECUTION_TIME) := by
      simp only [MAX_EXECUTION_TIME]
      push_neg
      exact ⟨h.1, h.2⟩
    rw [if_neg hn, if_pos h]
  · have hy : q ≤ 0 ∨ q > MAX_EXECUTION_TIME := by
      simp only [MAX_EXECUTION_TIME]
      rcases not_and_or.mp h with h1 | h2
      · exact Or.inl (not_lt.mp h1)
      · exact Or.inr (not_le.mp h2)
    rw [if_pos hy, if_neg h]

/-- C5: full characterization of one `write_result` call: at most 3 put
attempts are made (only the first three oracle answers matter), the call
returns success at the first successful attempt, the sleeps between
consecutive failed attempts are `2 ^ attempt` seconds (1s after attempt 0,
2s after attempt 1; the final failed attempt returns without sleeping),
and when all attempts fail the call returns `false` rather than raising. -/
theorem write_result_retry_spec (putOk : Nat → Bool) :
    write_result putOk =
      if putOk 0 then ⟨true, [], 1⟩
      else if putOk 1 then ⟨true, [2 ^ 0], 2⟩
      else if putOk 2 then ⟨true, [2 ^ 0, 2 ^ 1], 3⟩
      else ⟨false, [2 ^ 0, 2 ^ 1], 3⟩ := by
  have h : write_result putOk = write_result_go putOk 0 3 := rfl
  rw [h, write_result_go, write_result_go, write_result_go]
  cases h0 : putOk 0 <;> cases h1 : putOk 1 <;> cases h2 : putOk 2 <;> simp [h0, h1, h2]

/-- C6: the result write is a full replace keyed by `job_id`: writing the
item built from the same job id, outcome, metadata and timestamps twice
leaves the store — and in particular the record stored under that job id —
exactly as writing it once, whatever the prior store contents. -/
theorem write_idempotent (store : Store) (job_id : PyVal) (result : Outcome)
    (meta : List (String × PyVal)) (ts : List Char) (ttl : ℤ) :
    put_item (put_item store (build_item job_id result meta ts ttl))
        (build_item job_id result meta ts ttl)
      = put_item store (build_item job_id result meta ts ttl) ∧
    put_item (put_item store (build_item job_id result meta ts ttl))
        (build_item job_id result meta ts ttl) job_id
      = put_item store (build_item job_id result meta ts ttl) job_id := by
  have h : ∀ (s : Store) (it : Item), put_item (put_item s it) it = put_item s it := by
    intro s it
    funext k
    simp only [put_item]
    split <;> rfl
  exact ⟨h store _, congrFun (h store _) job_id⟩

/-- C7 counterexample: 4000 characters of stdout can exceed 4000 bytes:
on a stdout of 4000 two-byte characters the returned output is the full
4000 characters, i.e. 8000 UTF-8 bytes, refuting the 4000-byte bound. -/
theorem output_exceeds_4000_bytes :
    byteLen ((execute_code 5 3
        (.completed 0 (List.replicate 4000 'é') [])).output) = 8000 ∧
    4000 < (8000 : Nat) := by
  have h : (execute_code 5 3 (.completed 0 (List.replicate 4000 'é') [])).output
      = (List.replicate 4000 'é').take 4000 := rfl
  rw [h, List.take_replicate, Nat.min_self, byteLen_replicate]
  exact ⟨by decide, by decide⟩

/-- C7 amended: for a run that terminated, the returned output and error
are each the first at most 4000 characters of the captured stdout/stderr —
a deterministic prefix truncation realized by a total function (so it
cannot raise) — bounding each field by 4000 characters (not bytes). -/
theorem output_truncation_spec (t e : ℚ) (rc : ℤ) (out err : List Char) :
    (execute_code t e (.completed rc out err)).output = out.take 4000 ∧
    (execute_code t e (.completed rc out err)).error = err.take 4000 ∧
    (execute_code t e (.completed rc out err)).output.length ≤ 4000 ∧
    (execute_code t e (.completed rc out err)).error.length ≤ 4000 ∧
    (∃ rest, out = (execute_code t e (.completed rc out err)).output ++ rest) ∧
    (∃ rest, err = (execute_code t e (.completed rc out err)).error ++ rest) := by
  refine ⟨rfl, rfl, ?_, ?_, ⟨out.drop 4000, ?_⟩, ⟨err.drop 4000, ?_⟩⟩
  · exact List.length_take_le 4000 out
  · exact List.length_take_le 4000 err
  · exact (List.take_append_drop 4000 out).symm
  · exact (List.take_append_drop 4000 err).symm

/-- C9: a job omitting the timeout field passes validation (the check
defaults the value to `MAX_EXECUTION_TIME = 10`, which is in range), and
`process_message` then invokes the executor with a 10-second limit. -/
theorem missing_timeout_defaults_to_max (run : RunResult) (e : ℚ)
    (putOk : Nat → Bool) (ts : List Char) (ttl : ℤ) :
    validate_job noTimeoutJob = .ok (true, none) ∧
    (process_message (some noTimeoutJob) run e putOk ts ttl).executed = some 10 :=
  ⟨rfl, rfl⟩

/-- C10: on a well-formed job whose `code` field is a number,
`validate_job` raises (a `TypeError` from `len`) instead of returning a
validation failure, and the catch-all in `process_message` then performs
no write and no acknowledgment, leaving the message for redelivery. -/
theorem unsized_code_left_for_redelivery (run : RunResult) (e : ℚ)
    (putOk : Nat → Bool) (ts : List Char) (ttl : ℤ) :
    (∃ msg, validate_job numericCodeJob = .error msg) ∧
    process_message (some numericCodeJob) run e putOk ts ttl =
      { executed := none, wrote := none, writeReported := none, deleted := false } :=
  ⟨⟨"TypeError: object has no len()".toList, rfl⟩, rfl⟩
